import Mathlib

/-!
Verification development for the fixed-function OpenGL emulation engine of
Nanosaur2-Android: the WebGL/GLES2 layer (`Source/3D/gl_compat.c`) and the
GLES3 layer (`Source/System/GLESBridge.c`).

The C code is shallowly embedded: `float` arithmetic is idealized as exact
rational arithmetic (`ℚ`); external floating-point math (`sqrtf`, `cosf`,
`sinf`) is passed in as explicit inputs; caller-owned memory read through
client-array pointers is modelled as a fetch function from vertex index to
the component values the C code would read; `malloc` success/failure is an
explicit boolean input.
-/

namespace N2GL

/-- A 4x4 matrix: 16 rationals in column-major order as in the C `float
m[16]` of gl_compat.c / GLESBridge.c; field `mI` is array entry `m[I]`,
so entry (row r, column c) is `m(c*4+r)`. -/
structure Mat4 where
  m0 : ℚ
  m1 : ℚ
  m2 : ℚ
  m3 : ℚ
  m4 : ℚ
  m5 : ℚ
  m6 : ℚ
  m7 : ℚ
  m8 : ℚ
  m9 : ℚ
  m10 : ℚ
  m11 : ℚ
  m12 : ℚ
  m13 : ℚ
  m14 : ℚ
  m15 : ℚ
deriving DecidableEq

/-- mat4_identity (gl_compat.c 46-49) / Mat4_Identity (GLESBridge.c 46-49). -/
def mat4_identity : Mat4 :=
  ⟨1,0,0,0, 0,1,0,0, 0,0,1,0, 0,0,0,1⟩

/-- mat4_mul (gl_compat.c 50-59) / Mat4_Multiply (GLESBridge.c 51-60):
`out[c*4+r] = Σ_k a[k*4+r] * b[c*4+k]`, with the loops fully unrolled. -/
def mat4_mul (a b : Mat4) : Mat4 :=
  ⟨a.m0*b.m0 + a.m4*b.m1 + a.m8*b.m2 + a.m12*b.m3,
   a.m1*b.m0 + a.m5*b.m1 + a.m9*b.m2 + a.m13*b.m3,
   a.m2*b.m0 + a.m6*b.m1 + a.m10*b.m2 + a.m14*b.m3,
   a.m3*b.m0 + a.m7*b.m1 + a.m11*b.m2 + a.m15*b.m3,
   a.m0*b.m4 + a.m4*b.m5 + a.m8*b.m6 + a.m12*b.m7,
   a.m1*b.m4 + a.m5*b.m5 + a.m9*b.m6 + a.m13*b.m7,
   a.m2*b.m4 + a.m6*b.m5 + a.m10*b.m6 + a.m14*b.m7,
   a.m3*b.m4 + a.m7*b.m5 + a.m11*b.m6 + a.m15*b.m7,
   a.m0*b.m8 + a.m4*b.m9 + a.m8*b.m10 + a.m12*b.m11,
   a.m1*b.m8 + a.m5*b.m9 + a.m9*b.m10 + a.m13*b.m11,
   a.m2*b.m8 + a.m6*b.m9 + a.m10*b.m10 + a.m14*b.m11,
   a.m3*b.m8 + a.m7*b.m9 + a.m11*b.m10 + a.m15*b.m11,
   a.m0*b.m12 + a.m4*b.m13 + a.m8*b.m14 + a.m12*b.m15,
   a.m1*b.m12 + a.m5*b.m13 + a.m9*b.m14 + a.m13*b.m15,
   a.m2*b.m12 + a.m6*b.m13 + a.m10*b.m14 + a.m14*b.m15,
   a.m3*b.m12 + a.m7*b.m13 + a.m11*b.m14 + a.m15*b.m15⟩

/-- Translation matrix built by glTranslatef (gl_compat.c 558-562) /
bridge_Translatef (GLESBridge.c 584-591): identity with m[12..14] = x,y,z. -/
def translateMat (x y z : ℚ) : Mat4 :=
  ⟨1,0,0,0, 0,1,0,0, 0,0,1,0, x,y,z,1⟩

/-- Scale matrix built by glScalef (gl_compat.c 564-568) /
bridge_Scalef (GLESBridge.c 608-615). -/
def scaleMat (x y z : ℚ) : Mat4 :=
  ⟨x,0,0,0, 0,y,0,0, 0,0,z,0, 0,0,0,1⟩

/-- Rodrigues rotation matrix built by glRotatef (gl_compat.c 576-579) from
the normalized axis (x,y,z), where `c`/`s` stand for the externally computed
`cosf`/`sinf` of the angle in radians. -/
def glRotMat (c s x y z : ℚ) : Mat4 :=
  ⟨c + x*x*(1-c), y*x*(1-c) + z*s, z*x*(1-c) - y*s, 0,
   x*y*(1-c) - z*s, c + y*y*(1-c), z*y*(1-c) + x*s, 0,
   x*z*(1-c) + y*s, y*z*(1-c) - x*s, c + z*z*(1-c), 0,
   0, 0, 0, 1⟩

/-- Rotation matrix built by bridge_Rotatef (GLESBridge.c 598-602). -/
def bridgeRotMat (c s x y z : ℚ) : Mat4 :=
  ⟨c + x*x*(1-c), y*x*(1-c) + z*s, x*z*(1-c) - y*s, 0,
   x*y*(1-c) - z*s, c + y*y*(1-c), y*z*(1-c) + x*s, 0,
   x*z*(1-c) + y*s, y*z*(1-c) - x*s, c + z*z*(1-c), 0,
   0, 0, 0, 1⟩

/-- glRotatef (gl_compat.c 570-581). `l` is the externally computed
`sqrtf(ax*ax+ay*ay+az*az)`; when `l < 1e-7` the function returns with the
matrix untouched, otherwise it normalizes the axis and right-multiplies the
Rodrigues matrix into the current matrix. -/
def glRotatef (c s ax ay az l : ℚ) (m : Mat4) : Mat4 :=
  if l < 1/10^7 then m
  else mat4_mul m (glRotMat c s (ax/l) (ay/l) (az/l))

/-- bridge_Rotatef (GLESBridge.c 593-606). `len` is the externally computed
`sqrtf(x*x+y*y+z*z)`. There is no epsilon guard: the axis is normalized only
when `len > 0`, and the rotation matrix is always right-multiplied in. -/
def bridge_Rotatef (c s x y z len : ℚ) (m : Mat4) : Mat4 :=
  if len > 0 then mat4_mul m (bridgeRotMat c s (x/len) (y/len) (z/len))
  else mat4_mul m (bridgeRotMat c s x y z)

/-- MATRIX_STACK_DEPTH (gl_compat.c 31 / GLESBridge.c 29). -/
def MATRIX_STACK_DEPTH : ℕ := 32

/-- One software matrix stack (the modelview, projection and texture stacks
are three instances of the same code). `top` is the C `int` top-of-stack
index; `slots` is the backing array of `MATRIX_STACK_DEPTH` matrices. -/
structure MatrixStack where
  slots : List Mat4
  top   : ℤ
deriving DecidableEq

/-- The state after COMPAT_GL_Init / GLES_Init: all slots identity, top 0. -/
def initStack : MatrixStack :=
  ⟨List.replicate MATRIX_STACK_DEPTH mat4_identity, 0⟩

/-- The live top-of-stack matrix (`stack[top]`). -/
def currentMat (s : MatrixStack) : Mat4 :=
  s.slots.getD s.top.toNat mat4_identity

/-- Overwrite the top-of-stack matrix. -/
def setCurrent (s : MatrixStack) (m : Mat4) : MatrixStack :=
  ⟨s.slots.set s.top.toNat m, s.top⟩

/-- The matrix operations acting on one stack. For `rotate`, `c s` are the
externally computed cos/sin of the angle and `l` the externally computed
axis length, as in `glRotatef`. -/
inductive Op where
  | push
  | pop
  | loadIdentity
  | load (m : Mat4)
  | mult (m : Mat4)
  | translate (x y z : ℚ)
  | scale (x y z : ℚ)
  | rotate (c s ax ay az l : ℚ)
deriving DecidableEq

/-- Effect of the top-mutating operations on the current matrix. Each of
glLoadIdentity / glLoadMatrixf / glMultMatrixf / glTranslatef / glScalef /
glRotatef (gl_compat.c 526-581, GLESBridge.c 570-615) reads the current
top-of-stack matrix and writes the result back to the same slot. -/
def topTransform : Op → Mat4 → Mat4
  | .loadIdentity, _ => mat4_identity
  | .load m, _       => m
  | .mult m, a       => mat4_mul a m
  | .translate x y z, a => mat4_mul a (translateMat x y z)
  | .scale x y z, a  => mat4_mul a (scaleMat x y z)
  | .rotate c s ax ay az l, a => glRotatef c s ax ay az l a
  | .push, a => a
  | .pop,  a => a

/-- One step of the stack state machine. `push`/`pop` follow glPushMatrix /
glPopMatrix (gl_compat.c 536-556) and bridge_PushMatrix / bridge_PopMatrix
(GLESBridge.c 541-568): push copies the top into the next slot and increments
the index only when `top < MATRIX_STACK_DEPTH-1`; pop decrements only when
`top > 0`; both otherwise leave the state untouched. -/
def stackStep (op : Op) (s : MatrixStack) : MatrixStack :=
  match op with
  | .push =>
      if s.top < (MATRIX_STACK_DEPTH : ℤ) - 1 then
        ⟨s.slots.set (s.top + 1).toNat (currentMat s), s.top + 1⟩
      else s
  | .pop => if 0 < s.top then ⟨s.slots, s.top - 1⟩ else s
  | op => setCurrent s (topTransform op (currentMat s))

/-- Run a sequence of matrix operations. -/
def runOps (w : List Op) (s : MatrixStack) : MatrixStack :=
  w.foldl (fun s op => stackStep op s) s

/-- Well-formedness maintained by the engine: backing array of 32 slots and a
top index inside `[0, MATRIX_STACK_DEPTH-1]`. -/
def StackWF (s : MatrixStack) : Prop :=
  s.slots.length = MATRIX_STACK_DEPTH ∧ 0 ≤ s.top ∧ s.top ≤ (MATRIX_STACK_DEPTH : ℤ) - 1

instance (s : MatrixStack) : Decidable (StackWF s) := by
  unfold StackWF; infer_instance

/-- A stack whose top index sits at capacity-1 (used to exercise the
push-at-capacity clamp). -/
def fullStack : MatrixStack :=
  ⟨List.replicate MATRIX_STACK_DEPTH mat4_identity, (MATRIX_STACK_DEPTH : ℤ) - 1⟩

/-- Push/pop contribution of an operation to the bracket depth. -/
def depthDelta : Op → ℤ
  | .push => 1
  | .pop => -1
  | _ => 0

/-- Dyck check starting from depth `d`: the running push/pop depth never goes
negative and ends at 0. -/
def balancedFrom : List Op → ℤ → Bool
  | [], d => d == 0
  | op :: w, d => decide (0 ≤ d + depthDelta op) && balancedFrom w (d + depthDelta op)

/-- `w` is a balanced push/pop word (mutating operations do not count). -/
def balanced (w : List Op) : Bool := balancedFrom w 0

/-- True iff executing `op` on `s` does not hit the push-at-capacity or
pop-at-zero clamp of glPushMatrix / glPopMatrix. -/
def noClampOp (op : Op) (s : MatrixStack) : Bool :=
  match op with
  | .push => decide (s.top < (MATRIX_STACK_DEPTH : ℤ) - 1)
  | .pop => decide (0 < s.top)
  | _ => true

/-- True iff executing `w` from `s` never hits a clamp. -/
def noClampRun : List Op → MatrixStack → Bool
  | [], _ => true
  | op :: w, s => noClampOp op s && noClampRun w (stackStep op s)

/-- Ideal unbounded stack semantics (head of the list is the current matrix):
push duplicates the head, pop drops it, a mutating op rewrites it. -/
def idealStep (op : Op) : List Mat4 → List Mat4
  | [] => []
  | a :: l =>
    match op with
    | .push => a :: a :: l
    | .pop => l
    | op => topTransform op a :: l

def idealRun (w : List Op) (l : List Mat4) : List Mat4 :=
  w.foldl (fun l op => idealStep op l) l

/-- `slots[n] :: slots[n-1] :: ... :: slots[0]`. -/
def takeDown (slots : List Mat4) : ℕ → List Mat4
  | 0 => [slots.getD 0 mat4_identity]
  | n+1 => slots.getD (n+1) mat4_identity :: takeDown slots n

/-- Abstraction of the concrete stack to the ideal one: the slots from the
top down to index 0. -/
def toIdeal (s : MatrixStack) : List Mat4 := takeDown s.slots s.top.toNat

/-! ### Immediate mode: primitive decomposition at flush time -/

/-- Legacy GL primitive enum values used by glBegin / bridge_Begin. -/
def GL_TRIANGLES : ℕ := 0x0004
def GL_QUADS : ℕ := 0x0007
def GL_QUAD_STRIP : ℕ := 0x0008
def GL_POLYGON : ℕ := 0x0009

/-- ImmVert (gl_compat.c 129-135): one buffered immediate-mode vertex. -/
structure ImmVert where
  x : ℚ
  y : ℚ
  z : ℚ
  nx : ℚ
  ny : ℚ
  nz : ℚ
  r : ℚ
  g : ℚ
  b : ℚ
  a : ℚ
  s0 : ℚ
  t0 : ℚ
  s1 : ℚ
  t1 : ℚ
deriving DecidableEq

/-- Default vertex for out-of-range list reads (never hit in-range). -/
def dImm : ImmVert := ⟨0,0,0,0,0,0,0,0,0,0,0,0,0,0⟩

/-- glEnd quad split (gl_compat.c 913-925): the loop walks the buffer in
groups of four, emitting `qv[0],qv[1],qv[2], qv[0],qv[2],qv[3]` per group;
a trailing group of fewer than 4 vertices is dropped (`nquads = nsrc/4`). -/
def quadsToTris : List ImmVert → List ImmVert
  | v0 :: v1 :: v2 :: v3 :: rest =>
      v0 :: v1 :: v2 :: v0 :: v2 :: v3 :: quadsToTris rest
  | _ => []

/-- glEnd polygon fan (gl_compat.c 926-938): `src[0], src[i], src[i+1]` for
`i` in `[1, nsrc-2]`. `anchor` is `src[0]`. -/
def polygonFanFrom (anchor : ImmVert) : List ImmVert → List ImmVert
  | v1 :: v2 :: rest => anchor :: v1 :: v2 :: polygonFanFrom anchor (v2 :: rest)
  | _ => []

def polygonFan : List ImmVert → List ImmVert
  | v0 :: rest => polygonFanFrom v0 rest
  | [] => []

/-- glEnd (gl_compat.c 901-980), decomposition stage: the primitive and the
vertex list handed to the underlying glDrawArrays, given the accumulated
buffer. Only GL_QUADS (with at least 4 vertices) and GL_POLYGON (with at
least 3) are decomposed; every other primitive is passed through unchanged.
`tmpAllocOk` models the malloc of the temporary decomposition buffer: on
failure the undecomposed buffer is drawn with the original primitive. -/
def glEnd_drawList (prim : ℕ) (src : List ImmVert) (tmpAllocOk : Bool) :
    ℕ × List ImmVert :=
  if prim = GL_QUADS ∧ 4 ≤ src.length then
    if tmpAllocOk then (GL_TRIANGLES, quadsToTris src) else (prim, src)
  else if prim = GL_POLYGON ∧ 3 ≤ src.length then
    if tmpAllocOk then (GL_TRIANGLES, polygonFan src) else (prim, src)
  else (prim, src)

/-- FlushImmediate_Quads index generation (GLESBridge.c 848-856): for quad
`i` with `base = i*4`, emit `base, base+1, base+2, base, base+2, base+3`.
`base` tracks the loop position, `q` the quads remaining. -/
def bridgeQuadIndicesFrom (base : ℕ) : ℕ → List ℕ
  | 0 => []
  | q+1 => base :: (base+1) :: (base+2) :: base :: (base+2) :: (base+3) ::
      bridgeQuadIndicesFrom (base+4) q

/-- FlushImmediate_Quads (GLESBridge.c 840-857): `quadCount = gImmCount/4`
quads starting at base 0. -/
def bridgeQuadIndices (gImmCount : ℕ) : List ℕ :=
  bridgeQuadIndicesFrom 0 (gImmCount / 4)

/-- FlushImmediate_QuadStrip index generation (GLESBridge.c 893-901): for
quad `i` with `base = i*2`, emit
`base, base+1, base+2, base+1, base+3, base+2`. -/
def bridgeQuadStripIndicesFrom (base : ℕ) : ℕ → List ℕ
  | 0 => []
  | q+1 => base :: (base+1) :: (base+2) :: (base+1) :: (base+3) :: (base+2) ::
      bridgeQuadStripIndicesFrom (base+2) q

/-- FlushImmediate_QuadStrip (GLESBridge.c 884-901): returns early (nothing
drawn, `none`) when fewer than 4 vertices were emitted; otherwise generates
`quadCount = (numVerts-2)/2` quads of indices starting at base 0. -/
def bridgeQuadStripIndices (numVerts : ℕ) : Option (List ℕ) :=
  if numVerts < 4 then none
  else some (bridgeQuadStripIndicesFrom 0 ((numVerts - 2) / 2))

/-! ### Light position: set-time versus draw-time modelview transform -/

/-- A 4-component float vector. -/
structure Vec4 where
  x : ℚ
  y : ℚ
  z : ℚ
  w : ℚ
deriving DecidableEq

/-- The eye-space transform in glLightfv GL_POSITION (gl_compat.c 671-675):
`ep[r] = mv[0*4+r]*p[0] + mv[1*4+r]*p[1] + mv[2*4+r]*p[2] + mv[3*4+r]*p[3]`,
a full 4x4 matrix-vector multiply. -/
def glLightEyePos (mv : Mat4) (p : Vec4) : Vec4 :=
  ⟨mv.m0 * p.x + mv.m4 * p.y + mv.m8 * p.z + mv.m12 * p.w,
   mv.m1 * p.x + mv.m5 * p.y + mv.m9 * p.z + mv.m13 * p.w,
   mv.m2 * p.x + mv.m6 * p.y + mv.m10 * p.z + mv.m14 * p.w,
   mv.m3 * p.x + mv.m7 * p.y + mv.m11 * p.z + mv.m15 * p.w⟩

/-- glLightfv GL_POSITION (gl_compat.c 668-676): the stored light position is
the eye-space transform of `p` by the modelview top current at call time. -/
def glCompat_setLightPos (mvAtSet : Mat4) (p : Vec4) : Vec4 :=
  glLightEyePos mvAtSet p

/-- upload_uniforms (gl_compat.c 315-322): `s_lights[i].position` is uploaded
to the shader as stored; the draw-time modelview plays no part in it. -/
def glCompat_uploadLightPos (stored : Vec4) (_mvAtDraw : Mat4) : Vec4 :=
  stored

/-- bridge_Lightfv GL_POSITION (GLESBridge.c 657): the raw caller 4-vector is
stored, with no transform at call time. -/
def bridge_setLightPos (p : Vec4) : Vec4 := p

/-- UploadState (GLESBridge.c 430-445): before each draw, the stored light
position is transformed by the modelview top current at DRAW time
(`ep[0..2]` a 3-row multiply, `ep[3] = lp[3]`). -/
def bridge_uploadLightPos (stored : Vec4) (mvAtDraw : Mat4) : Vec4 :=
  ⟨mvAtDraw.m0 * stored.x + mvAtDraw.m4 * stored.y +
     mvAtDraw.m8 * stored.z + mvAtDraw.m12 * stored.w,
   mvAtDraw.m1 * stored.x + mvAtDraw.m5 * stored.y +
     mvAtDraw.m9 * stored.z + mvAtDraw.m13 * stored.w,
   mvAtDraw.m2 * stored.x + mvAtDraw.m6 * stored.y +
     mvAtDraw.m10 * stored.z + mvAtDraw.m14 * stored.w,
   stored.w⟩

/-! ### Alpha test -/

/-- FRAG_SRC alpha-test discard chain (gl_compat.c 263-272), over the shader
integer `u_alpha_func` (0=NEVER 1=LESS 2=EQUAL 3=LEQUAL 4=GREATER 5=NOTEQUAL
6=GEQUAL 7=ALWAYS): NEVER discards unconditionally; each comparison function
discards when its condition holds; ALWAYS falls through without discarding. -/
def glCompatAlphaDiscard (af : ℤ) (a ref : ℚ) : Bool :=
  if af = 0 then true
  else if af = 1 ∧ a ≥ ref then true
  else if af = 2 ∧ a ≠ ref then true
  else if af = 3 ∧ a > ref then true
  else if af = 4 ∧ a ≤ ref then true
  else if af = 5 ∧ a = ref then true
  else if af = 6 ∧ a < ref then true
  else false

/-- kFragmentShader alpha-test pass computation (GLESBridge.c 224-233), over
the raw GL enum `u_alphaFunc`; `pass` starts false, each branch assigns it,
and the fragment is discarded when `pass` is false. EQUAL and NOTEQUAL use
the tolerance `abs(a - ref) < 0.001` rather than exact comparison. -/
def bridgeAlphaPass (func : ℤ) (a ref : ℚ) : Bool :=
  if func = 0x0200 then false
  else if func = 0x0201 then decide (a < ref)
  else if func = 0x0202 then decide (|a - ref| < 1/1000)
  else if func = 0x0203 then decide (a ≤ ref)
  else if func = 0x0204 then decide (a > ref)
  else if func = 0x0205 then !(decide (|a - ref| < 1/1000))
  else if func = 0x0206 then decide (a ≥ ref)
  else if func = 0x0207 then true
  else false

/-! ### Client-side vertex arrays and the draw-call paths -/

/-- Component type of a client array (`GL_FLOAT`, `GL_UNSIGNED_BYTE`, or any
other enum value). -/
inductive CompType where
  | float
  | ubyte
  | other
deriving DecidableEq

/-- A client array descriptor (ClientArray, gl_compat.c 114-120;
VertexArrayState, GLESBridge.c 977-983). The caller-owned memory together
with the per-array stride arithmetic is modelled by `fetch`: for vertex `i`
it yields the four component values the C code would read at byte offset
`i * effective_stride`; `none` models a NULL data pointer. -/
structure ClientArrayQ where
  enabled : Bool
  size : ℤ
  ty : CompType
  fetch : Option (ℕ → Vec4)

/-- The component values read for vertex `i`, available only when the array
is both enabled and has a pointer (the `enabled && ptr` test used by the
gather loops). -/
def fetched (arr : ClientArrayQ) (i : ℕ) : Option Vec4 :=
  if arr.enabled then arr.fetch.map (fun f => f i) else none

/-- One interleaved vertex of the gl_compat wire layout
pos(3f) normal(3f) color(4f) tc0(2f) tc1(2f) (gl_compat.c 376). -/
structure GVert where
  px : ℚ
  py : ℚ
  pz : ℚ
  nx : ℚ
  ny : ℚ
  nz : ℚ
  cr : ℚ
  cg : ℚ
  cb : ℚ
  ca : ℚ
  s0 : ℚ
  t0 : ℚ
  s1 : ℚ
  t1 : ℚ
deriving DecidableEq

/-- Persistent gl_compat engine state touched by or visible to the draw
paths: software matrix stacks, fixed-function flags, client array
descriptors, current color and the immediate-mode current normal/texcoord. -/
structure GlCompatState where
  modelview : MatrixStack
  projection : MatrixStack
  ca_vertex : ClientArrayQ
  ca_normal : ClientArrayQ
  ca_color : ClientArrayQ
  ca_tc0 : ClientArrayQ
  ca_tc1 : ClientArrayQ
  currentColor : Vec4
  lightingEnabled : Bool
  fogEnabled : Bool
  alphaTestEnabled : Bool
  immCurrentNormal : ℚ × ℚ × ℚ
  immCurrentTexCoord : ℚ × ℚ

/-- One vertex of the interleaved buffer built by
setup_vertex_attribs_from_arrays (gl_compat.c 382-422):
position is gathered whenever the vertex pointer is set (enabled is not
consulted; z only when size >= 3, all reads are raw floats); normal, color
and the two texcoords are gathered when `enabled && ptr`, else replaced by
the defaults (0,0,1), the current color, and (0,0). -/
def glCompat_buildVertex (st : GlCompatState) (i : ℕ) : GVert :=
  let pos : ℚ × ℚ × ℚ :=
    match st.ca_vertex.fetch with
    | some f => ((f i).x, (f i).y, if 3 ≤ st.ca_vertex.size then (f i).z else 0)
    | none => (0, 0, 0)
  let nrm : ℚ × ℚ × ℚ :=
    match fetched st.ca_normal i with
    | some v => (v.x, v.y, v.z)
    | none => (0, 0, 1)
  let col : Vec4 :=
    match fetched st.ca_color i with
    | some v => ⟨v.x, v.y, v.z, v.w⟩
    | none => st.currentColor
  let tc0 : ℚ × ℚ :=
    match fetched st.ca_tc0 i with
    | some v => (v.x, v.y)
    | none => (0, 0)
  let tc1 : ℚ × ℚ :=
    match fetched st.ca_tc1 i with
    | some v => (v.x, v.y)
    | none => (0, 0)
  ⟨pos.1, pos.2.1, pos.2.2, nrm.1, nrm.2.1, nrm.2.2,
   col.x, col.y, col.z, col.w, tc0.1, tc0.2, tc1.1, tc1.2⟩

/-- Persistent GLESBridge engine state touched by or visible to the draw
paths. `va0..va3` are the position / normal / texcoord / color client
arrays (gVAState, GLESBridge.c 985). -/
structure BridgeState where
  modelview : MatrixStack
  projection : MatrixStack
  texture : MatrixStack
  va0 : ClientArrayQ
  va1 : ClientArrayQ
  va2 : ClientArrayQ
  va3 : ClientArrayQ
  currentColor : Vec4
  currentNormal : ℚ × ℚ × ℚ
  currentTexCoord : ℚ × ℚ
  lightingEnabled : Bool
  fogEnabled : Bool
  alphaTestEnabled : Bool

/-- One vertex of the interleaved buffer of the bridge wire layout
pos(3f) normal(3f) texcoord(2f) color(4f) (GLESBridge.c 1057). -/
structure BVert where
  px : ℚ
  py : ℚ
  pz : ℚ
  nx : ℚ
  ny : ℚ
  nz : ℚ
  s : ℚ
  t : ℚ
  cr : ℚ
  cg : ℚ
  cb : ℚ
  ca : ℚ
deriving DecidableEq

/-- One vertex of the interleaved buffer built inside bridge_DrawElements
(GLESBridge.c 1062-1103). Each attribute with `enabled && ptr` is gathered
from its array when the component type matches (GL_FLOAT, plus
GL_UNSIGNED_BYTE scaled by 1/255 for color); when the array is disabled or
has no pointer, the CURRENT normal / texcoord / color value is substituted
(not a fixed constant). -/
def bridge_buildVertex (st : BridgeState) (i : ℕ) : BVert :=
  let pos : ℚ × ℚ × ℚ :=
    match fetched st.va0 i with
    | some v =>
        if st.va0.ty = .float then (v.x, v.y, if 3 ≤ st.va0.size then v.z else 0)
        else (0, 0, 0)
    | none => (0, 0, 0)
  let nrm : ℚ × ℚ × ℚ :=
    match fetched st.va1 i with
    | some v => if st.va1.ty = .float then (v.x, v.y, v.z) else (0, 0, 1)
    | none => st.currentNormal
  let tc : ℚ × ℚ :=
    match fetched st.va2 i with
    | some v => if st.va2.ty = .float then (v.x, v.y) else (0, 0)
    | none => st.currentTexCoord
  let col : Vec4 :=
    match fetched st.va3 i with
    | some v =>
        if st.va3.ty = .float then ⟨v.x, v.y, v.z, if 4 ≤ st.va3.size then v.w else 1⟩
        else if st.va3.ty = .ubyte then
          ⟨v.x/255, v.y/255, v.z/255, if 4 ≤ st.va3.size then v.w/255 else 1⟩
        else ⟨1, 1, 1, 1⟩
    | none => st.currentColor
  ⟨pos.1, pos.2.1, pos.2.2, nrm.1, nrm.2.1, nrm.2.2,
   tc.1, tc.2, col.x, col.y, col.z, col.w⟩

/-- Index element type of a draw-elements call. -/
inductive IdxType where
  | ubyte
  | ushort
  | uint
  | otherIdx
deriving DecidableEq

/-- max_index (gl_compat.c 798-811) / the max-scan in bridge_DrawElements
(GLESBridge.c 1041-1054): running maximum starting from 0. -/
def maxIndexList (l : List ℕ) : ℕ := l.foldl max 0

/-- Outcome of a draw-call entry point. `drew` records the interleaved
vertices uploaded to the GPU buffer and the element count passed to the
underlying native draw; `aborted` is a clean early return after a failed
allocation; `crashed` marks a write through an unchecked NULL malloc
result. -/
inductive DrawOutcome (V : Type) where
  | noop
  | aborted
  | crashed
  | drew (verts : List V) (drawCount : ℤ)
deriving DecidableEq

/-- glDrawElements (gl_compat.c 813-851). `allocBuf` models the malloc of
the interleaved vertex buffer inside setup_vertex_attribs_from_arrays
(checked, line 379-380); `allocIdx` models the malloc of the
UNSIGNED_INT-to-UNSIGNED_SHORT index conversion buffer (NOT checked, line
830: its result is written through unconditionally, hence `.crashed` when it
fails). `indices` lists the `count` index values read from the caller
pointer. The persistent state is returned unchanged on every path. -/
def glDrawElements (allocBuf allocIdx : Bool) (count : ℤ) (ty : IdxType)
    (indices : List ℕ) (st : GlCompatState) : GlCompatState × DrawOutcome GVert :=
  if st.ca_vertex.fetch.isNone ∨ count ≤ 0 then (st, .noop)
  else
    let eff := indices.take count.toNat
    let vcount := maxIndexList eff + 1
    if allocBuf = false then (st, .aborted)
    else if ty = .uint ∧ vcount ≤ 65535 ∧ allocIdx = false then (st, .crashed)
    else (st, .drew ((List.range vcount).map (glCompat_buildVertex st)) count)

/-- glDrawArrays (gl_compat.c 853-873): after the guard, the vertex pointer
is temporarily advanced by `first` vertices and restored on both the
allocation-failure path and the success path, so the returned state always
carries the original pointer. -/
def glDrawArrays (allocBuf : Bool) (first count : ℤ) (st : GlCompatState) :
    GlCompatState × DrawOutcome GVert :=
  if st.ca_vertex.fetch.isNone ∨ count ≤ 0 then (st, .noop)
  else
    let orig := st.ca_vertex.fetch
    let shifted : GlCompatState :=
      if first ≠ 0 then
        { st with ca_vertex :=
            { st.ca_vertex with fetch := orig.map (fun f j => f (first.toNat + j)) } }
      else st
    let restored : GlCompatState :=
      { shifted with ca_vertex := { shifted.ca_vertex with fetch := orig } }
    if allocBuf = false then (restored, .aborted)
    else (restored, .drew ((List.range count.toNat).map (glCompat_buildVertex shifted)) count)

/-- bridge_DrawElements (GLESBridge.c 1037-1138). The only guard is
`!gVAState[0].enabled || !gVAState[0].ptr`; `count` is NOT checked, so a
non-positive count still scans zero indices (max stays 0), materializes
`maxIndex+1 = 1` vertex, uploads it and issues the underlying draw with that
count. `allocOk` models the malloc of the interleaved buffer (checked, line
1059-1060). The persistent state is returned unchanged on every path. -/
def bridge_DrawElements (allocOk : Bool) (count : ℤ) (ty : IdxType)
    (indices : List ℕ) (st : BridgeState) : BridgeState × DrawOutcome BVert :=
  if st.va0.enabled = false ∨ st.va0.fetch.isNone then (st, .noop)
  else
    let eff := indices.take count.toNat
    let maxIdx := if ty = .ushort ∨ ty = .uint ∨ ty = .ubyte then maxIndexList eff else 0
    let numVerts := maxIdx + 1
    if allocOk = false then (st, .aborted)
    else (st, .drew ((List.range numVerts).map (bridge_buildVertex st)) count)

/-! ### Concrete fixtures for counterexamples and witnesses -/

/-- An enabled float client array whose memory reads all come back zero. -/
def fetchZero : ℕ → Vec4 := fun _ => ⟨0, 0, 0, 0⟩

def caOn : ClientArrayQ := ⟨true, 3, .float, some fetchZero⟩

/-- A disabled client array with no pointer. -/
def caOff : ClientArrayQ := ⟨false, 4, .float, none⟩

/-- A gl_compat state with only the vertex array pointer set. -/
def glCompatSample : GlCompatState :=
  ⟨initStack, initStack, caOn, caOff, caOff, caOff, caOff,
   ⟨1, 1, 1, 1⟩, false, false, false, (0, 0, 1), (0, 0)⟩

/-- A bridge state with only the position array enabled and set. -/
def bridgeSample : BridgeState :=
  ⟨initStack, initStack, initStack, caOn, caOff, caOff, caOff,
   ⟨1, 1, 1, 1⟩, (0, 0, 1), (0, 0), false, false, false⟩

/-- Same bridge state after bridge_Normal3f(1,0,0) changed the current
normal. -/
def bridgeSampleN : BridgeState :=
  { bridgeSample with currentNormal := (1, 0, 0) }

/-- A bridge state whose position array is disabled. -/
def bridgeSampleOff : BridgeState :=
  { bridgeSample with va0 := caOff }

def matA : Mat4 := scaleMat 2 2 2
def matB : Mat4 := scaleMat 3 3 3
def matC : Mat4 := scaleMat 5 5 5

/-- The stack after `load matA`, 31 pushes (filling the stack to
top = 31 with copies of matA) and `load matB` at the top. -/
def overfullStack : MatrixStack :=
  runOps (Op.load matA :: (List.replicate 31 Op.push ++ [Op.load matB])) initStack

/-- Four pairwise distinct immediate-mode vertices. -/
def stripVerts : List ImmVert :=
  [dImm, { dImm with x := 1 }, { dImm with x := 2 }, { dImm with x := 3 }]

/-! ### C1: light position, set-time versus draw-time transform -/

/-- C1 counterexample: set a light position p = (1,0,0,1) while the
modelview is the identity (so the set-time eye-space transform is p itself),
then translate the modelview by (0,0,5). At draw time the GLES3 bridge
uploads the draw-time transform (1,0,5,1), not the set-time transform
(1,0,0,1), refuting the claim that the stored/uploaded value is the
set-time transform and is never retransformed by a later modelview. -/
theorem light_position_drawtime_counterexample :
    currentMat (runOps [Op.translate 0 0 5] initStack) = translateMat 0 0 5 ∧
    bridge_uploadLightPos (bridge_setLightPos ⟨1, 0, 0, 1⟩)
        (translateMat 0 0 5) = ⟨1, 0, 5, 1⟩ ∧
    glCompat_uploadLightPos (glCompat_setLightPos mat4_identity ⟨1, 0, 0, 1⟩)
        (translateMat 0 0 5) = ⟨1, 0, 0, 1⟩ ∧
    (⟨1, 0, 5, 1⟩ : Vec4) ≠ ⟨1, 0, 0, 1⟩ := by
  refine ⟨?_, ?_, ?_, by decide⟩
  · norm_num [runOps, stackStep, topTransform, setCurrent, currentMat, initStack,
      MATRIX_STACK_DEPTH, mat4_mul, mat4_identity, translateMat]
  · norm_num [bridge_uploadLightPos, bridge_setLightPos, translateMat]
  · norm_num [glCompat_uploadLightPos, glCompat_setLightPos, glLightEyePos,
      mat4_identity]

/-- C1 (amended): in the WebGL layer, glLightfv transforms the position by
the modelview current at call time, stores the eye-space result, and
upload_uniforms sends exactly that stored value to the shader regardless of
the draw-time modelview; in the GLES3 bridge, bridge_Lightfv stores the raw
position and UploadState transforms it by the DRAW-time modelview (xyz rows;
w passed through) on every draw. -/
theorem light_position_settime_amended :
    (∀ (mvAtSet : Mat4) (p : Vec4) (mvAtDraw : Mat4),
        glCompat_uploadLightPos (glCompat_setLightPos mvAtSet p) mvAtDraw
          = glLightEyePos mvAtSet p) ∧
    (∀ (p : Vec4) (mvAtDraw : Mat4),
        (bridge_uploadLightPos (bridge_setLightPos p) mvAtDraw).x
            = (glLightEyePos mvAtDraw p).x ∧
        (bridge_uploadLightPos (bridge_setLightPos p) mvAtDraw).y
            = (glLightEyePos mvAtDraw p).y ∧
        (bridge_uploadLightPos (bridge_setLightPos p) mvAtDraw).z
            = (glLightEyePos mvAtDraw p).z ∧
        (bridge_uploadLightPos (bridge_setLightPos p) mvAtDraw).w = p.w) := by
  refine ⟨fun mvAtSet p mvAtDraw => rfl, fun p mvAtDraw => ⟨rfl, rfl, rfl, rfl⟩⟩

/-! ### C7: rotation with a degenerate axis -/

/-- C7 counterexample: bridge_Rotatef with angle 90 degrees (cos = 0,
sin = 1) and the zero axis (length 0, hence below 1e-7) changes the identity
matrix: the bridge has no epsilon guard and multiplies the current matrix by
diag(cos, cos, cos, 1). -/
theorem rotate_zero_axis_bridge_counterexample :
    bridge_Rotatef 0 1 0 0 0 0 mat4_identity ≠ mat4_identity := by
  norm_num [bridge_Rotatef, bridgeRotMat, mat4_mul, mat4_identity, Mat4.mk.injEq]

/-- C7 (amended): the WebGL layer glRotatef is an exact no-op for any angle
whenever the computed axis length is below 1e-7; the GLES3 bridge has no
such guard: with the zero axis it right-multiplies the current matrix by
diag(cos, cos, cos, 1), which changes the matrix whenever cos is not 1. -/
theorem rotate_small_axis_amended :
    (∀ (c s ax ay az l : ℚ) (m : Mat4),
        l < 1/10^7 → glRotatef c s ax ay az l m = m) ∧
    (∀ (c s : ℚ) (m : Mat4),
        bridge_Rotatef c s 0 0 0 0 m
          = mat4_mul m ⟨c,0,0,0, 0,c,0,0, 0,0,c,0, 0,0,0,1⟩) := by
  constructor
  · intro c s ax ay az l m h
    unfold glRotatef
    rw [if_pos h]
  · intro c s m
    have hR : bridgeRotMat c s 0 0 0 = (⟨c,0,0,0, 0,c,0,0, 0,0,c,0, 0,0,0,1⟩ : Mat4) := by
      unfold bridgeRotMat
      norm_num [Mat4.mk.injEq]
    unfold bridge_Rotatef
    rw [if_neg (by norm_num), hR]

theorem rotate_small_axis_amended_witness :
    (0 : ℚ) < 1/10^7 ∧ glRotatef 0 1 0 0 0 0 mat4_identity = mat4_identity :=
  ⟨by norm_num, rotate_small_axis_amended.1 0 1 0 0 0 0 mat4_identity (by norm_num)⟩

/-! ### C8: alpha-test comparison semantics -/

/-- C8 counterexample: in the GLES3 bridge fragment shader, the EQUAL alpha
function keeps a fragment with alpha 0.5005 against reference 0.5 even
though the two are not equal, because EQUAL is implemented with the
tolerance abs(a - ref) < 0.001. -/
theorem alpha_equal_epsilon_counterexample :
    bridgeAlphaPass 0x0202 (5005/10000) (1/2) = true ∧
    (5005/10000 : ℚ) ≠ 1/2 := by
  refine ⟨by norm_num [bridgeAlphaPass, abs_lt], by norm_num⟩

/-- C8 (amended): the WebGL shader implements the legacy semantics exactly:
NEVER always discards, ALWAYS never discards, and each comparison function
keeps the fragment precisely when the named comparison of alpha against the
reference succeeds (with the LEQUAL ref = 0.5 example behaving as claimed).
The GLES3 bridge shader does the same for NEVER/LESS/LEQUAL/GREATER/GEQUAL/
ALWAYS, but implements EQUAL and NOTEQUAL with the tolerance
abs(a - ref) < 0.001 instead of exact comparison. -/
theorem alpha_test_semantics_amended :
    (∀ a ref : ℚ,
        glCompatAlphaDiscard 0 a ref = true ∧
        glCompatAlphaDiscard 7 a ref = false ∧
        (glCompatAlphaDiscard 1 a ref = false ↔ a < ref) ∧
        (glCompatAlphaDiscard 2 a ref = false ↔ a = ref) ∧
        (glCompatAlphaDiscard 3 a ref = false ↔ a ≤ ref) ∧
        (glCompatAlphaDiscard 4 a ref = false ↔ a > ref) ∧
        (glCompatAlphaDiscard 5 a ref = false ↔ a ≠ ref) ∧
        (glCompatAlphaDiscard 6 a ref = false ↔ a ≥ ref)) ∧
    (glCompatAlphaDiscard 3 (1/2) (1/2) = false ∧
      glCompatAlphaDiscard 3 (51/100) (1/2) = true) ∧
    (∀ a ref : ℚ,
        bridgeAlphaPass 0x0200 a ref = false ∧
        bridgeAlphaPass 0x0207 a ref = true ∧
        (bridgeAlphaPass 0x0201 a ref = true ↔ a < ref) ∧
        (bridgeAlphaPass 0x0203 a ref = true ↔ a ≤ ref) ∧
        (bridgeAlphaPass 0x0204 a ref = true ↔ a > ref) ∧
        (bridgeAlphaPass 0x0206 a ref = true ↔ a ≥ ref) ∧
        (bridgeAlphaPass 0x0202 a ref = true ↔ |a - ref| < 1/1000) ∧
        (bridgeAlphaPass 0x0205 a ref = true ↔ ¬(|a - ref| < 1/1000))) ∧
    (bridgeAlphaPass 0x0203 (1/2) (1/2) = true ∧
      bridgeAlphaPass 0x0203 (51/100) (1/2) = false) := by
  refine ⟨fun a ref => ?_,
    ⟨by norm_num [glCompatAlphaDiscard], by norm_num [glCompatAlphaDiscard]⟩,
    fun a ref => ?_,
    by norm_num [bridgeAlphaPass], by norm_num [bridgeAlphaPass]⟩
  · refine ⟨?_, ?_, ?_, ?_, ?_, ?_, ?_, ?_⟩ <;> norm_num [glCompatAlphaDiscard]
  · refine ⟨?_, ?_, ?_, ?_, ?_, ?_, ?_, ?_⟩ <;> norm_num [bridgeAlphaPass]

/-! ### C2: matrix stack depth invariant -/

lemma stackStep_top_bounds (op : Op) (s : MatrixStack)
    (h0 : 0 ≤ s.top) (h1 : s.top ≤ (MATRIX_STACK_DEPTH : ℤ) - 1) :
    0 ≤ (stackStep op s).top ∧ (stackStep op s).top ≤ (MATRIX_STACK_DEPTH : ℤ) - 1 := by
  simp only [MATRIX_STACK_DEPTH] at *
  cases op <;>
    simp only [stackStep, setCurrent, MATRIX_STACK_DEPTH] <;>
    first
      | exact ⟨h0, h1⟩
      | (split <;> (try dsimp only) <;> omega)

lemma runOps_top_bounds (w : List Op) :
    ∀ s : MatrixStack, 0 ≤ s.top → s.top ≤ (MATRIX_STACK_DEPTH : ℤ) - 1 →
      0 ≤ (runOps w s).top ∧ (runOps w s).top ≤ (MATRIX_STACK_DEPTH : ℤ) - 1 := by
  induction w with
  | nil => exact fun s h0 h1 => ⟨h0, h1⟩
  | cons op w ih =>
      intro s h0 h1
      obtain ⟨g0, g1⟩ := stackStep_top_bounds op s h0 h1
      exact ih (stackStep op s) g0 g1

/-- C2: on a matrix stack (modelview and projection run the same code), the
top index stays within [0, MATRIX_STACK_DEPTH-1] = [0, 31] across every
sequence of operations starting from the initial state; glPushMatrix with
the top already at capacity-1 leaves the whole state unchanged (silent
no-op); glPopMatrix with the top at 0 likewise. -/
theorem matrix_stack_depth_invariant :
    (∀ w : List Op,
        0 ≤ (runOps w initStack).top ∧
        (runOps w initStack).top ≤ (MATRIX_STACK_DEPTH : ℤ) - 1) ∧
    (∀ s : MatrixStack,
        s.top = (MATRIX_STACK_DEPTH : ℤ) - 1 → stackStep Op.push s = s) ∧
    (∀ s : MatrixStack, s.top = 0 → stackStep Op.pop s = s) := by
  refine ⟨fun w => runOps_top_bounds w initStack (by decide) (by decide), ?_, ?_⟩
  · intro s h
    have hn : ¬ (s.top < (MATRIX_STACK_DEPTH : ℤ) - 1) := by omega
    simp only [stackStep, if_neg hn]
  · intro s h
    have hn : ¬ (0 < s.top) := by omega
    simp only [stackStep, if_neg hn]

/-! ### C4: quad decomposition -/

lemma getD_cons4 (a b c d : ImmVert) (l : List ImmVert) (n : ℕ) :
    (a :: b :: c :: d :: l).getD (n+4) dImm = l.getD n dImm := rfl

lemma quadsToTris_append (pre : List ImmVert) (h : pre.length % 4 = 0)
    (suf : List ImmVert) :
    quadsToTris (pre ++ suf) = quadsToTris pre ++ quadsToTris suf := by
  induction pre using quadsToTris.induct with
  | case1 v0 v1 v2 v3 rest ih =>
      simp only [List.length_cons] at h
      simp only [List.cons_append, quadsToTris, List.append_eq, ih (by omega)]
  | case2 l hne =>
      rcases l with _ | ⟨a, _ | ⟨b, _ | ⟨c, _ | ⟨d, r⟩⟩⟩⟩
      · rfl
      · simp at h
      · simp at h
      · simp [Nat.add_mod] at h
      · exact absurd rfl (hne a b c d r)

lemma bridgeQuadIndicesFrom_map_shift (k : ℕ) :
    ∀ (base : ℕ) (a b c d : ImmVert) (l : List ImmVert),
      (bridgeQuadIndicesFrom (base+4) k).map
          (fun j => (a :: b :: c :: d :: l).getD j dImm)
        = (bridgeQuadIndicesFrom base k).map (fun j => l.getD j dImm) := by
  induction k with
  | zero => intro base a b c d l; rfl
  | succ k ih =>
      intro base a b c d l
      simp only [bridgeQuadIndicesFrom, List.map_cons]
      rw [show base+4+1 = (base+1)+4 by omega, show base+4+2 = (base+2)+4 by omega,
        show base+4+3 = (base+3)+4 by omega, show base+4+4 = (base+4)+4 by omega]
      simp only [getD_cons4]
      rw [ih (base+4) a b c d l]

lemma bridgeQuadIndices_resolves (src : List ImmVert) :
    (bridgeQuadIndices src.length).map (fun j => src.getD j dImm)
      = quadsToTris src := by
  induction src using quadsToTris.induct with
  | case1 v0 v1 v2 v3 rest ih =>
      have hlen : (v0 :: v1 :: v2 :: v3 :: rest).length / 4 = rest.length / 4 + 1 := by
        simp only [List.length_cons]
        omega
      simp only [bridgeQuadIndices] at *
      rw [hlen]
      simp only [bridgeQuadIndicesFrom, List.map_cons, quadsToTris]
      rw [show (0:ℕ)+4 = 0+4 from rfl]
      rw [bridgeQuadIndicesFrom_map_shift (rest.length / 4) 0 v0 v1 v2 v3 rest, ih]
      rfl
  | case2 l hne =>
      rcases l with _ | ⟨a, _ | ⟨b, _ | ⟨c, _ | ⟨d, r⟩⟩⟩⟩
      · rfl
      · simp [bridgeQuadIndices, quadsToTris, bridgeQuadIndicesFrom]
      · simp [bridgeQuadIndices, quadsToTris, bridgeQuadIndicesFrom]
      · simp [bridgeQuadIndices, quadsToTris, bridgeQuadIndicesFrom]
      · exact absurd rfl (hne a b c d r)

/-- C4: a begin/end sequence tagged GL_QUADS with exactly 4 emitted vertices
V0..V3 is flushed as the triangle list [V0,V1,V2,V0,V2,V3] (WebGL layer
glEnd); in general every group of 4 consecutive quad vertices (at a
multiple-of-4 offset) contributes exactly the triangles (0,1,2),(0,2,3) of
that group, in place; and the GLES3 bridge index list (0,1,2, 0,2,3 per
quad) resolves over the vertex buffer to exactly the same triangle list. -/
theorem quad_decomposition :
    (∀ v0 v1 v2 v3 : ImmVert,
        glEnd_drawList GL_QUADS [v0, v1, v2, v3] true
          = (GL_TRIANGLES, [v0, v1, v2, v0, v2, v3])) ∧
    (∀ (pre : List ImmVert) (v0 v1 v2 v3 : ImmVert) (rest : List ImmVert),
        pre.length % 4 = 0 →
        quadsToTris (pre ++ [v0, v1, v2, v3] ++ rest)
          = quadsToTris pre ++ [v0, v1, v2, v0, v2, v3] ++ quadsToTris rest) ∧
    (∀ src : List ImmVert,
        (bridgeQuadIndices src.length).map (fun j => src.getD j dImm)
          = quadsToTris src) := by
  refine ⟨fun v0 v1 v2 v3 => rfl, ?_, bridgeQuadIndices_resolves⟩
  intro pre v0 v1 v2 v3 rest h
  have h4 : ([v0, v1, v2, v3] : List ImmVert).length % 4 = 0 := by simp
  rw [List.append_assoc, quadsToTris_append pre h,
    quadsToTris_append [v0, v1, v2, v3] h4 rest]
  simp [quadsToTris, List.append_assoc]

theorem quad_decomposition_witness :
    glEnd_drawList GL_QUADS [dImm, dImm, dImm, dImm] true
        = (GL_TRIANGLES, [dImm, dImm, dImm, dImm, dImm, dImm]) ∧
    ([] : List ImmVert).length % 4 = 0 ∧
    quadsToTris ([] ++ [dImm, dImm, dImm, dImm] ++ [])
      = quadsToTris [] ++ [dImm, dImm, dImm, dImm, dImm, dImm] ++ quadsToTris [] :=
  ⟨quad_decomposition.1 dImm dImm dImm dImm, rfl,
   quad_decomposition.2.1 [] dImm dImm dImm dImm [] rfl⟩

/-! ### C5: quad-strip decomposition -/

lemma getD_cons6 (x0 x1 x2 x3 x4 x5 : ℕ) (l : List ℕ) (n : ℕ) :
    (x0 :: x1 :: x2 :: x3 :: x4 :: x5 :: l).getD (n+6) 0 = l.getD n 0 := rfl

lemma bridgeQuadStripIndicesFrom_length (k : ℕ) :
    ∀ base, (bridgeQuadStripIndicesFrom base k).length = 6 * k := by
  induction k with
  | zero => intro base; rfl
  | succ k ih =>
      intro base
      simp only [bridgeQuadStripIndicesFrom, List.length_cons, ih (base+2)]
      omega

lemma bridgeQuadStripIndicesFrom_getD (i : ℕ) :
    ∀ (k base : ℕ), i < k →
      (bridgeQuadStripIndicesFrom base k).getD (6*i) 0 = base + 2*i ∧
      (bridgeQuadStripIndicesFrom base k).getD (6*i+1) 0 = base + 2*i + 1 ∧
      (bridgeQuadStripIndicesFrom base k).getD (6*i+2) 0 = base + 2*i + 2 ∧
      (bridgeQuadStripIndicesFrom base k).getD (6*i+3) 0 = base + 2*i + 1 ∧
      (bridgeQuadStripIndicesFrom base k).getD (6*i+4) 0 = base + 2*i + 3 ∧
      (bridgeQuadStripIndicesFrom base k).getD (6*i+5) 0 = base + 2*i + 2 := by
  induction i with
  | zero =>
      intro k base hk
      match k, hk with
      | (m+1), _ => exact ⟨rfl, rfl, rfl, rfl, rfl, rfl⟩
  | succ i ih =>
      intro k base hk
      match k, hk with
      | (m+1), _ =>
          have hi : i < m := by omega
          obtain ⟨e0, e1, e2, e3, e4, e5⟩ := ih m (base+2) hi
          refine ⟨?_, ?_, ?_, ?_, ?_, ?_⟩ <;>
            simp only [bridgeQuadStripIndicesFrom]
          · rw [show 6*(i+1) = 6*i+6 by omega, getD_cons6, e0]; omega
          · rw [show 6*(i+1)+1 = (6*i+1)+6 by omega, getD_cons6, e1]; omega
          · rw [show 6*(i+1)+2 = (6*i+2)+6 by omega, getD_cons6, e2]; omega
          · rw [show 6*(i+1)+3 = (6*i+3)+6 by omega, getD_cons6, e3]; omega
          · rw [show 6*(i+1)+4 = (6*i+4)+6 by omega, getD_cons6, e4]; omega
          · rw [show 6*(i+1)+5 = (6*i+5)+6 by omega, getD_cons6, e5]; omega

/-- C5 counterexample: the WebGL layer glEnd does NOT decompose quad strips:
a GL_QUAD_STRIP begin/end sequence with 4 vertices is flushed unchanged (4
vertices, primitive still GL_QUAD_STRIP), not as the 6-vertex two-triangle
decomposition the claim asserts for every implementation. -/
theorem quadstrip_glcompat_passthrough_counterexample :
    glEnd_drawList GL_QUAD_STRIP stripVerts true = (GL_QUAD_STRIP, stripVerts) ∧
    stripVerts.length = 4 ∧ GL_QUAD_STRIP ≠ GL_TRIANGLES := by
  refine ⟨rfl, rfl, by decide⟩

/-- C5 (amended): in the GLES3 bridge, FlushImmediate_QuadStrip on N >= 4
emitted vertices generates exactly (N-2)/2 quads, quad i being the two
triangles with vertex indices (2i, 2i+1, 2i+2) and (2i+1, 2i+3, 2i+2); the
WebGL layer glEnd passes quad-strip primitives through undecomposed. -/
theorem quadstrip_decomposition_amended (n : ℕ) (hn : 4 ≤ n) :
    ∃ idx, bridgeQuadStripIndices n = some idx ∧
      idx.length = 6 * ((n-2)/2) ∧
      ∀ i, i < (n-2)/2 →
        idx.getD (6*i) 0 = 2*i ∧ idx.getD (6*i+1) 0 = 2*i+1 ∧
        idx.getD (6*i+2) 0 = 2*i+2 ∧ idx.getD (6*i+3) 0 = 2*i+1 ∧
        idx.getD (6*i+4) 0 = 2*i+3 ∧ idx.getD (6*i+5) 0 = 2*i+2 := by
  refine ⟨bridgeQuadStripIndicesFrom 0 ((n-2)/2), ?_, ?_, ?_⟩
  · simp only [bridgeQuadStripIndices]
    rw [if_neg (by omega)]
  · exact bridgeQuadStripIndicesFrom_length _ 0
  · intro i hi
    obtain ⟨e0, e1, e2, e3, e4, e5⟩ := bridgeQuadStripIndicesFrom_getD i ((n-2)/2) 0 hi
    refine ⟨?_, ?_, ?_, ?_, ?_, ?_⟩ <;> omega

theorem quadstrip_decomposition_amended_witness :
    4 ≤ 6 ∧
    ∃ idx, bridgeQuadStripIndices 6 = some idx ∧
      idx.length = 6 * ((6-2)/2) ∧
      ∀ i, i < (6-2)/2 →
        idx.getD (6*i) 0 = 2*i ∧ idx.getD (6*i+1) 0 = 2*i+1 ∧
        idx.getD (6*i+2) 0 = 2*i+2 ∧ idx.getD (6*i+3) 0 = 2*i+1 ∧
        idx.getD (6*i+4) 0 = 2*i+3 ∧ idx.getD (6*i+5) 0 = 2*i+2 :=
  ⟨by omega, quadstrip_decomposition_amended 6 (by omega)⟩

theorem matrix_stack_depth_invariant_witness :
    (0 ≤ (runOps [Op.push, Op.pop] initStack).top ∧
      (runOps [Op.push, Op.pop] initStack).top ≤ (MATRIX_STACK_DEPTH : ℤ) - 1) ∧
    fullStack.top = (MATRIX_STACK_DEPTH : ℤ) - 1 ∧
    stackStep Op.push fullStack = fullStack ∧
    initStack.top = 0 ∧
    stackStep Op.pop initStack = initStack :=
  ⟨matrix_stack_depth_invariant.1 [Op.push, Op.pop], rfl,
   matrix_stack_depth_invariant.2.1 fullStack rfl, rfl,
   matrix_stack_depth_invariant.2.2 initStack rfl⟩

end N2GL

namespace N2GL

/-! ### C3: push/pop round-trip law -/

lemma getD_set_self (l : List Mat4) (i : ℕ) (v : Mat4) (h : i < l.length) :
    (l.set i v).getD i mat4_identity = v := by
  simp [List.getD_eq_getElem?_getD, List.getElem?_set_self, h]

lemma getD_set_other (l : List Mat4) (i j : ℕ) (v : Mat4) (h : i ≠ j) :
    (l.set i v).getD j mat4_identity = l.getD j mat4_identity := by
  simp [List.getD_eq_getElem?_getD, List.getElem?_set_ne h]

lemma takeDown_length (slots : List Mat4) : ∀ n, (takeDown slots n).length = n + 1 := by
  intro n
  induction n with
  | zero => rfl
  | succ n ih => simp [takeDown, ih]

lemma takeDown_congr (s1 s2 : List Mat4) :
    ∀ n, (∀ i, i ≤ n → s1.getD i mat4_identity = s2.getD i mat4_identity) →
      takeDown s1 n = takeDown s2 n := by
  intro n
  induction n with
  | zero =>
      intro h
      simp only [takeDown]
      rw [h 0 le_rfl]
  | succ n ih =>
      intro h
      simp only [takeDown]
      rw [h (n+1) le_rfl, ih (fun i hi => h i (by omega))]

lemma toIdeal_head (s : MatrixStack) :
    (toIdeal s).headD mat4_identity = currentMat s := by
  unfold toIdeal currentMat
  cases s.top.toNat with
  | zero => rfl
  | succ n => rfl

lemma toIdeal_shape (s : MatrixStack) : ∃ l, toIdeal s = currentMat s :: l := by
  unfold toIdeal currentMat
  cases s.top.toNat with
  | zero => exact ⟨[], rfl⟩
  | succ n => exact ⟨takeDown s.slots n, rfl⟩

lemma toIdeal_length (s : MatrixStack) : (toIdeal s).length = s.top.toNat + 1 :=
  takeDown_length s.slots s.top.toNat

lemma setCurrent_sim (s : MatrixStack) (v : Mat4) (hwf : StackWF s) :
    toIdeal (setCurrent s v) = v :: (toIdeal s).tail ∧ StackWF (setCurrent s v) := by
  obtain ⟨hlen, h0, h1⟩ := hwf
  simp only [MATRIX_STACK_DEPTH] at hlen h1
  have htlt : s.top.toNat < s.slots.length := by omega
  constructor
  · unfold toIdeal setCurrent
    dsimp only
    cases h : s.top.toNat with
    | zero =>
        rw [h] at htlt
        simp only [takeDown]
        rw [getD_set_self _ _ _ htlt]
        rfl
    | succ n =>
        rw [h] at htlt
        simp only [takeDown]
        rw [getD_set_self _ _ _ htlt,
          takeDown_congr _ _ n (fun i hi => getD_set_other _ _ _ _ (by omega))]
        rfl
  · refine ⟨?_, ?_, ?_⟩ <;>
      simp [setCurrent, MATRIX_STACK_DEPTH, List.length_set, hlen] <;> omega

lemma stackStep_mut_sim (s : MatrixStack) (hwf : StackWF s) (op : Op)
    (hstep : stackStep op s = setCurrent s (topTransform op (currentMat s)))
    (hideal : ∀ (a : Mat4) (l : List Mat4),
        idealStep op (a :: l) = topTransform op a :: l) :
    toIdeal (stackStep op s) = idealStep op (toIdeal s) ∧ StackWF (stackStep op s) := by
  obtain ⟨l₀, hl₀⟩ := toIdeal_shape s
  obtain ⟨hsim, hwfn⟩ := setCurrent_sim s (topTransform op (currentMat s)) hwf
  rw [hstep]
  refine ⟨?_, hwfn⟩
  rw [hsim, hl₀, hideal]
  rfl

lemma stackStep_sim (op : Op) (s : MatrixStack) (hwf : StackWF s)
    (hnc : noClampOp op s = true) :
    toIdeal (stackStep op s) = idealStep op (toIdeal s) ∧ StackWF (stackStep op s) := by
  have hwf' := hwf
  obtain ⟨hlen, h0, h1⟩ := hwf'
  simp only [MATRIX_STACK_DEPTH] at hlen h1
  cases op with
  | push =>
      have hlt : s.top < (MATRIX_STACK_DEPTH : ℤ) - 1 := by
        simpa [noClampOp] using hnc
      simp only [MATRIX_STACK_DEPTH] at hlt
      obtain ⟨l₀, hl₀⟩ := toIdeal_shape s
      rw [show stackStep Op.push s
          = if s.top < (MATRIX_STACK_DEPTH : ℤ) - 1 then
              ⟨s.slots.set (s.top + 1).toNat (currentMat s), s.top + 1⟩
            else s from rfl]
      rw [if_pos (by simp only [MATRIX_STACK_DEPTH]; omega)]
      have ht : (s.top + 1).toNat = s.top.toNat + 1 := by omega
      constructor
      · unfold toIdeal
        dsimp only
        rw [ht]
        simp only [takeDown]
        rw [getD_set_self _ _ _ (by omega),
          takeDown_congr _ s.slots s.top.toNat
            (fun i hi => getD_set_other _ _ _ _ (by omega))]
        rw [show takeDown s.slots s.top.toNat = toIdeal s from rfl, hl₀]
        rfl
      · refine ⟨?_, ?_, ?_⟩ <;> dsimp only <;>
          (try simp only [MATRIX_STACK_DEPTH, List.length_set]) <;> omega
  | pop =>
      have hpos : 0 < s.top := by simpa [noClampOp] using hnc
      rw [show stackStep Op.pop s
          = if 0 < s.top then ⟨s.slots, s.top - 1⟩ else s from rfl]
      rw [if_pos hpos]
      constructor
      · unfold toIdeal
        dsimp only
        cases h : s.top.toNat with
        | zero => omega
        | succ n =>
            have hn : (s.top - 1).toNat = n := by omega
            rw [hn]
            rfl
      · refine ⟨?_, ?_, ?_⟩ <;> dsimp only <;>
          (try simp only [MATRIX_STACK_DEPTH]) <;> omega
  | loadIdentity => exact stackStep_mut_sim s hwf _ rfl (fun a l => rfl)
  | load m => exact stackStep_mut_sim s hwf _ rfl (fun a l => rfl)
  | mult m => exact stackStep_mut_sim s hwf _ rfl (fun a l => rfl)
  | translate x y z => exact stackStep_mut_sim s hwf _ rfl (fun a l => rfl)
  | scale x y z => exact stackStep_mut_sim s hwf _ rfl (fun a l => rfl)
  | rotate c sv ax ay az lv => exact stackStep_mut_sim s hwf _ rfl (fun a l => rfl)

lemma runOps_sim (w : List Op) :
    ∀ s, StackWF s → noClampRun w s = true →
      toIdeal (runOps w s) = idealRun w (toIdeal s) ∧ StackWF (runOps w s) := by
  induction w with
  | nil => exact fun s hwf _ => ⟨rfl, hwf⟩
  | cons op w ih =>
      intro s hwf hnc
      rw [show noClampRun (op :: w) s = (noClampOp op s && noClampRun w (stackStep op s))
        from rfl, Bool.and_eq_true] at hnc
      obtain ⟨hsim, hwfn⟩ := stackStep_sim op s hwf hnc.1
      obtain ⟨hsim2, hwfn2⟩ := ih (stackStep op s) hwfn hnc.2
      refine ⟨?_, hwfn2⟩
      rw [show runOps (op :: w) s = runOps w (stackStep op s) from rfl, hsim2,
        show idealRun (op :: w) (toIdeal s) = idealRun w (idealStep op (toIdeal s)) from rfl,
        hsim]

lemma idealRun_pres (w : List Op) :
    ∀ (d : ℤ) (m l : List Mat4), 0 ≤ d → (m.length : ℤ) = d + 1 →
      balancedFrom w d = true →
      ∃ mm : List Mat4, mm.length = 1 ∧ idealRun w (m ++ l) = mm ++ l := by
  induction w with
  | nil =>
      intro d m l hd hm hb
      rw [show balancedFrom [] d = (d == 0) from rfl, beq_iff_eq] at hb
      refine ⟨m, by omega, rfl⟩
  | cons op w ih =>
      intro d m l hd hm hb
      rw [show balancedFrom (op :: w) d
          = (decide (0 ≤ d + depthDelta op) && balancedFrom w (d + depthDelta op))
        from rfl, Bool.and_eq_true, decide_eq_true_eq] at hb
      obtain ⟨hd', hb'⟩ := hb
      rcases m with _ | ⟨a, m'⟩
      · simp at hm
        omega
      · rw [show idealRun (op :: w) ((a :: m') ++ l)
            = idealRun w (idealStep op ((a :: m') ++ l)) from rfl]
        cases op with
        | push =>
            rw [show idealStep Op.push ((a :: m') ++ l) = (a :: a :: m') ++ l from rfl]
            refine ih (d+1) (a :: a :: m') l (by omega) ?_ hb'
            simp at hm ⊢
            omega
        | pop =>
            have hdel : depthDelta Op.pop = -1 := rfl
            rw [hdel] at hd' hb'
            have hm' : (m'.length : ℤ) = (d - 1) + 1 := by
              simp at hm
              omega
            rw [show idealStep Op.pop ((a :: m') ++ l) = m' ++ l from rfl]
            exact ih (d-1) m' l (by omega) hm' hb'
        | loadIdentity =>
            rw [show depthDelta Op.loadIdentity = 0 from rfl, add_zero] at hb'
            refine ih d (topTransform Op.loadIdentity a :: m') l hd ?_ hb'
            simpa using hm
        | load mx =>
            rw [show depthDelta (Op.load mx) = 0 from rfl, add_zero] at hb'
            refine ih d (topTransform (Op.load mx) a :: m') l hd ?_ hb'
            simpa using hm
        | mult mx =>
            rw [show depthDelta (Op.mult mx) = 0 from rfl, add_zero] at hb'
            refine ih d (topTransform (Op.mult mx) a :: m') l hd ?_ hb'
            simpa using hm
        | translate x y z =>
            rw [show depthDelta (Op.translate x y z) = 0 from rfl, add_zero] at hb'
            refine ih d (topTransform (Op.translate x y z) a :: m') l hd ?_ hb'
            simpa using hm
        | scale x y z =>
            rw [show depthDelta (Op.scale x y z) = 0 from rfl, add_zero] at hb'
            refine ih d (topTransform (Op.scale x y z) a :: m') l hd ?_ hb'
            simpa using hm
        | rotate c sv ax ay az lv =>
            rw [show depthDelta (Op.rotate c sv ax ay az lv) = 0 from rfl, add_zero] at hb'
            refine ih d (topTransform (Op.rotate c sv ax ay az lv) a :: m') l hd ?_ hb'
            simpa using hm

set_option maxRecDepth 100000 in
/-- C3 counterexample: fill the stack (load A, 31 pushes), overwrite the top
with B, then run push (a silent no-op at capacity), load C, pop. The value
on top before the push was B, but after the pop the top is A: the pop does
not restore the value present before its matching push once a push has been
clamped at capacity. -/
theorem push_pop_roundtrip_overflow_counterexample :
    currentMat overfullStack = matB ∧
    currentMat (runOps [Op.push, Op.load matC, Op.pop] overfullStack) = matA ∧
    matA ≠ matB := by
  refine ⟨by decide, by decide, by decide⟩

/-- C3 (amended): the round-trip law holds as long as no clamping occurs:
for any well-formed stack state and any balanced sequence `w` of operations,
if the bracketed run `push; w; pop` never hits the push-at-capacity or
pop-at-zero clamp, then it restores both the top matrix value and the top
index exactly. (The counterexample shows the law fails as stated once a
push saturates at depth 32.) -/
theorem push_pop_roundtrip_amended (s : MatrixStack) (w : List Op)
    (hwf : StackWF s) (hb : balanced w = true)
    (hnc : noClampRun (Op.push :: (w ++ [Op.pop])) s = true) :
    currentMat (runOps (Op.push :: (w ++ [Op.pop])) s) = currentMat s ∧
    (runOps (Op.push :: (w ++ [Op.pop])) s).top = s.top := by
  obtain ⟨hsim, hwf2⟩ := runOps_sim (Op.push :: (w ++ [Op.pop])) s hwf hnc
  obtain ⟨l₀, hl₀⟩ := toIdeal_shape s
  have hideal : idealRun (Op.push :: (w ++ [Op.pop])) (toIdeal s) = toIdeal s := by
    rw [show idealRun (Op.push :: (w ++ [Op.pop])) (toIdeal s)
        = idealRun (w ++ [Op.pop]) (idealStep Op.push (toIdeal s)) from rfl]
    rw [show idealRun (w ++ [Op.pop]) (idealStep Op.push (toIdeal s))
        = idealStep Op.pop (idealRun w (idealStep Op.push (toIdeal s))) by
      unfold idealRun
      rw [List.foldl_append]
      rfl]
    rw [hl₀]
    rw [show idealStep Op.push (currentMat s :: l₀)
        = [currentMat s] ++ (currentMat s :: l₀) from rfl]
    obtain ⟨mm, hmm1, hmm2⟩ :=
      idealRun_pres w 0 [currentMat s] (currentMat s :: l₀) le_rfl (by simp) hb
    rw [hmm2]
    rcases mm with _ | ⟨b, _ | ⟨b2, mm'⟩⟩
    · simp at hmm1
    · rfl
    · simp at hmm1
  rw [hideal] at hsim
  constructor
  · rw [show currentMat (runOps (Op.push :: (w ++ [Op.pop])) s)
        = (toIdeal (runOps (Op.push :: (w ++ [Op.pop])) s)).headD mat4_identity
      from (toIdeal_head _).symm, hsim, toIdeal_head]
  · have hlen1 := toIdeal_length (runOps (Op.push :: (w ++ [Op.pop])) s)
    have hlen2 := toIdeal_length s
    rw [hsim] at hlen1
    obtain ⟨_, ht0, _⟩ := hwf
    obtain ⟨_, ht2, _⟩ := hwf2
    omega

theorem push_pop_roundtrip_amended_witness :
    StackWF initStack ∧
    balanced [Op.load matA, Op.push, Op.load matB, Op.pop] = true ∧
    noClampRun (Op.push :: ([Op.load matA, Op.push, Op.load matB, Op.pop] ++ [Op.pop]))
      initStack = true ∧
    currentMat (runOps (Op.push :: ([Op.load matA, Op.push, Op.load matB, Op.pop]
      ++ [Op.pop])) initStack) = currentMat initStack ∧
    (runOps (Op.push :: ([Op.load matA, Op.push, Op.load matB, Op.pop] ++ [Op.pop]))
      initStack).top = initStack.top :=
  ⟨by decide, by decide, by decide,
   (push_pop_roundtrip_amended initStack [Op.load matA, Op.push, Op.load matB, Op.pop]
     (by decide) (by decide) (by decide)).1,
   (push_pop_roundtrip_amended initStack [Op.load matA, Op.push, Op.load matB, Op.pop]
     (by decide) (by decide) (by decide)).2⟩

/-! ### C6: defaults for disabled client arrays in the array draw path -/

/-- C6 counterexample: in the GLES3 bridge, after bridge_Normal3f(1,0,0) a
draw with the normal array disabled fills every vertex with normal (1,0,0),
the CURRENT normal, not the fixed default (0,0,1) the claim asserts. -/
theorem array_defaults_current_normal_counterexample :
    ((bridge_buildVertex bridgeSampleN 0).nx, (bridge_buildVertex bridgeSampleN 0).ny,
      (bridge_buildVertex bridgeSampleN 0).nz) = ((1:ℚ), (0:ℚ), (0:ℚ)) ∧
    ((1:ℚ), (0:ℚ), (0:ℚ)) ≠ ((0:ℚ), (0:ℚ), (1:ℚ)) := by
  exact ⟨rfl, by decide⟩

/-- C6 (amended): in the WebGL layer the fixed defaults hold as claimed
(disabled normal array gives (0,0,1), disabled color array gives the current
color, disabled texcoord arrays give (0,0)). In the GLES3 bridge a disabled
normal / texcoord / color array is filled with the CURRENT normal, texcoord
and color values (initialized to (0,0,1), (0,0) and settable by
bridge_Normal3f / bridge_TexCoord2f / bridge_Color*); the claimed fixed
defaults hold there only while the current normal and texcoord still hold
their initial values. -/
theorem array_defaults_amended :
    (∀ (st : GlCompatState) (i : ℕ),
        (st.ca_normal.enabled = false →
          ((glCompat_buildVertex st i).nx, (glCompat_buildVertex st i).ny,
            (glCompat_buildVertex st i).nz) = (0, 0, 1)) ∧
        (st.ca_color.enabled = false →
          ((glCompat_buildVertex st i).cr, (glCompat_buildVertex st i).cg,
            (glCompat_buildVertex st i).cb, (glCompat_buildVertex st i).ca)
            = (st.currentColor.x, st.currentColor.y, st.currentColor.z,
               st.currentColor.w)) ∧
        (st.ca_tc0.enabled = false →
          ((glCompat_buildVertex st i).s0, (glCompat_buildVertex st i).t0) = (0, 0)) ∧
        (st.ca_tc1.enabled = false →
          ((glCompat_buildVertex st i).s1, (glCompat_buildVertex st i).t1) = (0, 0))) ∧
    (∀ (st : BridgeState) (i : ℕ),
        (st.va1.enabled = false →
          ((bridge_buildVertex st i).nx, (bridge_buildVertex st i).ny,
            (bridge_buildVertex st i).nz) = st.currentNormal) ∧
        (st.va2.enabled = false →
          ((bridge_buildVertex st i).s, (bridge_buildVertex st i).t)
            = st.currentTexCoord) ∧
        (st.va3.enabled = false →
          ((bridge_buildVertex st i).cr, (bridge_buildVertex st i).cg,
            (bridge_buildVertex st i).cb, (bridge_buildVertex st i).ca)
            = (st.currentColor.x, st.currentColor.y, st.currentColor.z,
               st.currentColor.w)) ∧
        (st.va1.enabled = false → st.va2.enabled = false → st.va3.enabled = false →
          st.currentNormal = (0, 0, 1) → st.currentTexCoord = (0, 0) →
          ((bridge_buildVertex st i).nx, (bridge_buildVertex st i).ny,
            (bridge_buildVertex st i).nz) = (0, 0, 1) ∧
          ((bridge_buildVertex st i).s, (bridge_buildVertex st i).t) = (0, 0) ∧
          ((bridge_buildVertex st i).cr, (bridge_buildVertex st i).cg,
            (bridge_buildVertex st i).cb, (bridge_buildVertex st i).ca)
            = (st.currentColor.x, st.currentColor.y, st.currentColor.z,
               st.currentColor.w))) := by
  constructor
  · intro st i
    refine ⟨fun h => ?_, fun h => ?_, fun h => ?_, fun h => ?_⟩ <;>
      simp [glCompat_buildVertex, fetched, h]
  · intro st i
    refine ⟨fun h => ?_, fun h => ?_, fun h => ?_, fun h1 h2 h3 hn ht => ?_⟩
    · simp [bridge_buildVertex, fetched, h]
    · simp [bridge_buildVertex, fetched, h]
    · simp [bridge_buildVertex, fetched, h]
    · refine ⟨?_, ?_, ?_⟩ <;> simp [bridge_buildVertex, fetched, h1, h2, h3, hn, ht]

theorem array_defaults_amended_witness :
    glCompatSample.ca_normal.enabled = false ∧
    (((glCompat_buildVertex glCompatSample 0).nx,
      (glCompat_buildVertex glCompatSample 0).ny,
      (glCompat_buildVertex glCompatSample 0).nz) = (0, 0, 1)) ∧
    bridgeSample.va1.enabled = false ∧
    (((bridge_buildVertex bridgeSample 0).nx, (bridge_buildVertex bridgeSample 0).ny,
      (bridge_buildVertex bridgeSample 0).nz) = bridgeSample.currentNormal) :=
  ⟨rfl, (array_defaults_amended.1 glCompatSample 0).1 rfl, rfl,
   (array_defaults_amended.2 bridgeSample 0).1 rfl⟩

/-! ### C9: allocation failure inside a draw call -/

/-- C9: evaluation of the draw paths under allocation failure. The checked
allocations (interleaved buffer in both layers) abort cleanly with the state
unchanged, as the spec says; but when the UNSIGNED_INT-to-SHORT index
conversion malloc inside glDrawElements fails (gl_compat.c 830), the result
is written through without a null check: the call crashes instead of
aborting.  Inputs: 3 indices [0,1,2], vertex array pointer set. -/
theorem draw_alloc_failure_eval :
    glDrawElements true false 3 IdxType.uint [0, 1, 2] glCompatSample
      = (glCompatSample, DrawOutcome.crashed) ∧
    glDrawElements false true 3 IdxType.uint [0, 1, 2] glCompatSample
      = (glCompatSample, DrawOutcome.aborted) ∧
    glDrawArrays false 0 3 glCompatSample = (glCompatSample, DrawOutcome.aborted) ∧
    bridge_DrawElements false 3 IdxType.ushort [0, 1, 2] bridgeSample
      = (bridgeSample, DrawOutcome.aborted) := by
  refine ⟨rfl, rfl, rfl, rfl⟩

/-! ### C10: no-op guards on the array draw paths -/

/-- C10 counterexample: bridge_DrawElements does not check the count: with
the position array enabled and set, a call with count = 0 still materializes
vertex 0, uploads the interleaved buffer and issues the underlying draw with
count 0 -- it is not a complete no-op. -/
theorem bridge_draw_count_zero_counterexample :
    bridge_DrawElements true 0 IdxType.ushort [] bridgeSample
      = (bridgeSample, DrawOutcome.drew [bridge_buildVertex bridgeSample 0] 0) ∧
    DrawOutcome.drew [bridge_buildVertex bridgeSample 0] (0:ℤ)
      ≠ (DrawOutcome.noop : DrawOutcome BVert) := by
  exact ⟨rfl, fun h => DrawOutcome.noConfusion h⟩

/-- C10 (amended): the WebGL layer glDrawElements and glDrawArrays are
complete no-ops (no draw, no upload, state unchanged) when the vertex
pointer is unset or the count is non-positive. The GLES3 bridge_DrawElements
is a complete no-op only when the position array is disabled or its pointer
unset; it does not check the count, so a call with count <= 0 and a valid
position array still materializes vertex 0, uploads it, and issues the
underlying draw with that count (the state is still unchanged). -/
theorem draw_noop_guard_amended :
    (∀ (ab ai : Bool) (count : ℤ) (ty : IdxType) (idx : List ℕ) (st : GlCompatState),
        st.ca_vertex.fetch.isNone = true ∨ count ≤ 0 →
        glDrawElements ab ai count ty idx st = (st, .noop)) ∧
    (∀ (ab : Bool) (first count : ℤ) (st : GlCompatState),
        st.ca_vertex.fetch.isNone = true ∨ count ≤ 0 →
        glDrawArrays ab first count st = (st, .noop)) ∧
    (∀ (ab : Bool) (count : ℤ) (ty : IdxType) (idx : List ℕ) (st : BridgeState),
        st.va0.enabled = false ∨ st.va0.fetch.isNone = true →
        bridge_DrawElements ab count ty idx st = (st, .noop)) ∧
    (∀ (count : ℤ) (ty : IdxType) (idx : List ℕ) (st : BridgeState),
        st.va0.enabled = true → st.va0.fetch.isSome = true → count ≤ 0 →
        bridge_DrawElements true count ty idx st
          = (st, .drew [bridge_buildVertex st 0] count)) := by
  refine ⟨?_, ?_, ?_, ?_⟩
  · intro ab ai count ty idx st h
    unfold glDrawElements
    rw [if_pos h]
  · intro ab first count st h
    unfold glDrawArrays
    rw [if_pos h]
  · intro ab count ty idx st h
    unfold bridge_DrawElements
    rw [if_pos h]
  · intro count ty idx st h1 h2 hc
    have hg : ¬ (st.va0.enabled = false ∨ st.va0.fetch.isNone = true) := by
      simp [h1, h2, Option.isNone_iff_eq_none]
      exact Option.isSome_iff_ne_none.mp h2
    unfold bridge_DrawElements
    rw [if_neg hg]
    have ht : count.toNat = 0 := Int.toNat_of_nonpos hc
    simp only [ht, List.take_zero]
    have hm : (if (ty = IdxType.ushort ∨ ty = IdxType.uint ∨ ty = IdxType.ubyte)
        then maxIndexList [] else 0) = 0 := by
      split <;> rfl
    rw [hm]
    rfl

theorem draw_noop_guard_amended_witness :
    glDrawElements true true 0 IdxType.ushort [] glCompatSample
      = (glCompatSample, DrawOutcome.noop) ∧
    glDrawArrays true 0 0 glCompatSample = (glCompatSample, DrawOutcome.noop) ∧
    bridge_DrawElements true 3 IdxType.ushort [] bridgeSampleOff
      = (bridgeSampleOff, DrawOutcome.noop) ∧
    bridge_DrawElements true 0 IdxType.ushort [] bridgeSample
      = (bridgeSample, DrawOutcome.drew [bridge_buildVertex bridgeSample 0] 0) :=
  ⟨draw_noop_guard_amended.1 true true 0 IdxType.ushort [] glCompatSample (Or.inr le_rfl),
   draw_noop_guard_amended.2.1 true 0 0 glCompatSample (Or.inr le_rfl),
   draw_noop_guard_amended.2.2.1 true 3 IdxType.ushort [] bridgeSampleOff (Or.inl rfl),
   draw_noop_guard_amended.2.2.2 0 IdxType.ushort [] bridgeSample rfl rfl le_rfl⟩

end N2GL
